import Mathlib

/-!
Shallow embedding of the recipe-bot repository (src/main.py): the recipe
source adapter (Spoonacular call, local fallback table), the favorites
store (SQLite table modelled as a list of rows), and the two browsing
session state machines (search mode and favorites mode), together with
theorems settling the specification claims.

Strings are modelled as `List Char`; Python `str` operations used by the
code (`strip`, `replace(" ", "+")`, `lower`, substring `in`) are embedded
below.  `lower` is modelled on the alphabets the program actually uses
(ASCII A-Z and Cyrillic А-Я/Ё); machine-irrelevant Unicode cases are left
as the identity.
-/

/-- Python whitespace characters (the ASCII ones `str.strip` removes):
space, tab, newline, carriage return, vertical tab, form feed. -/
def pyIsSpace (c : Char) : Bool :=
  c.toNat == 32 || c.toNat == 9 || c.toNat == 10 || c.toNat == 13 ||
  c.toNat == 11 || c.toNat == 12

/-- The join token `+` that `replace(" ", "+")` substitutes for a space. -/
def joinTok : Char := Char.ofNat 43

/-- One character of Python `str.lower()`, on the alphabets the program
uses: ASCII A-Z, Cyrillic А-Я (U+0410..U+042F) and Ё (U+0401). -/
def pyCharLower (c : Char) : Char :=
  if 65 ≤ c.toNat ∧ c.toNat ≤ 90 then Char.ofNat (c.toNat + 32)
  else if 1040 ≤ c.toNat ∧ c.toNat ≤ 1071 then Char.ofNat (c.toNat + 32)
  else if c.toNat = 1025 then Char.ofNat 1105
  else c

/-- Python `str.lower()` over the modelled string. -/
def pyLower (s : List Char) : List Char := s.map pyCharLower

/-- Python `str.strip()`: drop leading and trailing whitespace. -/
def pyStrip (s : List Char) : List Char :=
  ((s.dropWhile pyIsSpace).reverse.dropWhile pyIsSpace).reverse

/-- Python `str.replace(" ", "+")` applied to one character. -/
def replSpacePlus (c : Char) : Char :=
  if c.toNat == 32 then joinTok else c

/-- Does the haystack start with the needle? (helper for substring `in`). -/
def startsWithSeq : List Char → List Char → Bool
  | [], _ => true
  | _ :: _, [] => false
  | n :: ns, h :: hs => n == h && startsWithSeq ns hs

/-- Python substring containment `needle in haystack`. -/
def containsSub (needle : List Char) : List Char → Bool
  | [] => startsWithSeq needle []
  | h :: hs => startsWithSeq needle (h :: hs) || containsSub needle hs

/-- A recipe summary as produced by the adapter (remote response entry or
local table entry): `id`, `title`, `image`, match counts.  Counts are
modelled as `Int` (Python ints), non-negativity being a property, not a
type constraint. -/
structure Recipe where
  id : Int
  title : String
  image : String
  usedIngredientCount : Int
  missedIngredientCount : Int
deriving DecidableEq

/-- The hard-coded `basic_recipes` list of `get_local_recipes`. -/
def basic_recipes : List Recipe :=
  [ { id := 1
      title := "Омлет с молоком"
      image := "https://spoonacular.com/recipeImages/1-312x231.jpg"
      usedIngredientCount := 2
      missedIngredientCount := 1 },
    { id := 2
      title := "Блины на молоке"
      image := "https://spoonacular.com/recipeImages/2-312x231.jpg"
      usedIngredientCount := 3
      missedIngredientCount := 2 } ]

/-- `get_local_recipes`: lower-case the input, then keep each demo recipe
iff the text contains both of the literal tokens `яйца` and `молоко`
(the guard does not mention the recipe, so it is all-or-nothing). -/
def get_local_recipes (ingredients : List Char) : List Recipe :=
  let ingredients_lower := pyLower ingredients
  basic_recipes.filter (fun _ =>
    containsSub "яйца".data ingredients_lower &&
    containsSub "молоко".data ingredients_lower)

/-- The query parameters `_call_spoonacular_api` sends (minus the key). -/
structure ApiParams where
  ingredients : List Char
  number : Nat
  ranking : Nat
  ignorePantry : Bool
deriving DecidableEq

/-- The `ingredients_cleaned` expression:
`ingredients.strip().replace(" ", "+").lower()`. -/
def ingredients_cleaned (ingredients : List Char) : List Char :=
  pyLower ((pyStrip ingredients).map replSpacePlus)

/-- The request `_call_spoonacular_api` builds for a given input. -/
def spoonacularParams (ingredients : List Char) : ApiParams :=
  { ingredients := ingredients_cleaned ingredients
    number := 10
    ranking := 2
    ignorePantry := true }

/-- Environment model of one remote HTTP exchange: either the transport
raises (`requests.exceptions.RequestException`: timeout, connection
error, ...), or a response arrives with a status code and a body; a body
of `none` models a payload that `response.json()` cannot parse. -/
inductive RemoteResult where
  | transportError : RemoteResult
  | response (status : Nat) (body : Option (List Recipe)) : RemoteResult
deriving DecidableEq

/-- `requests.Response.raise_for_status()` raises exactly for 4xx/5xx. -/
def raise_for_status_raises (status : Nat) : Bool :=
  400 ≤ status && status < 600

/-- `_call_spoonacular_api`: without a key, return `[]` immediately; with
a key, a transport error, a 402 status, a status that `raise_for_status`
rejects, or an unparsable body each yield `[]` (every exception is caught
and turned into `[]`); otherwise the parsed body is returned as-is. -/
def call_spoonacular_api (apiKey : Option String) (ingredients : List Char)
    (remote : RemoteResult) : List Recipe :=
  match apiKey with
  | none => []
  | some _ =>
    match remote with
    | RemoteResult.transportError => []
    | RemoteResult.response status body =>
      if status = 402 then []
      else if raise_for_status_raises status then []
      else
        match body with
        | none => []
        | some recipes => recipes

/-- `search_recipes`: take the API result if it is non-empty (Python list
truthiness), otherwise fall back to the local table.  Nothing inside can
raise, so the `except` branch of the source is dead. -/
def search_recipes (apiKey : Option String) (ingredients : List Char)
    (remote : RemoteResult) : List Recipe :=
  let api_recipes := call_spoonacular_api apiKey ingredients remote
  if api_recipes.isEmpty then get_local_recipes ingredients else api_recipes

/-- One row of the SQLite `favorites` table (the autoincrement primary
key is not modelled: no query uses it). -/
structure FavRow where
  recipe_id : Int
  title : String
  image : String
  used_ingredients : Int
  missed_ingredients : Int
  user_id : Int
deriving DecidableEq

/-- `add_favorite`: INSERT a snapshot row of the recipe for this user. -/
def add_favorite (recipe : Recipe) (user_id : Int) (db : List FavRow) :
    List FavRow :=
  db ++ [{ recipe_id := recipe.id
           title := recipe.title
           image := recipe.image
           used_ingredients := recipe.usedIngredientCount
           missed_ingredients := recipe.missedIngredientCount
           user_id := user_id }]

/-- `remove_favorite`: DELETE every row whose `(recipe_id, user_id)`
matches. -/
def remove_favorite (recipe_id user_id : Int) (db : List FavRow) :
    List FavRow :=
  db.filter (fun row => !(row.recipe_id == recipe_id && row.user_id == user_id))

/-- `get_favorites`: SELECT the user's rows, projected to `Recipe` shape
(aliasing `recipe_id` to `id` and the count columns to the camel-case
names), in storage order. -/
def get_favorites (user_id : Int) (db : List FavRow) : List Recipe :=
  (db.filter (fun row => row.user_id == user_id)).map (fun row =>
    { id := row.recipe_id
      title := row.title
      image := row.image
      usedIngredientCount := row.used_ingredients
      missedIngredientCount := row.missed_ingredients })

/-- `is_favorite`: does a row with this `(recipe_id, user_id)` exist? -/
def is_favorite (recipe_id user_id : Int) (db : List FavRow) : Bool :=
  db.any (fun row => row.recipe_id == recipe_id && row.user_id == user_id)

/-- Search-mode browsing state kept in `context.user_data`:
`recipes` and `current_recipe_index`. -/
structure SearchSession where
  recipes : List Recipe
  current_recipe_index : Nat
deriving DecidableEq

/-- The callback payloads the search-mode keyboard can produce.  `count`
is the middle position button, whose payload matches no branch of the
handler and falls through to a plain re-render. -/
inductive SearchAction where
  | prev : SearchAction
  | next : SearchAction
  | fav (recipe_id : Int) : SearchAction
  | done : SearchAction
  | count : SearchAction
deriving DecidableEq

/-- The inline keyboard `get_recipe_keyboard` builds: the favorite button
label (`true` renders as the already-in-favorites label), and the 1-based
position display over the total. -/
structure Keyboard where
  favLabelInFavorites : Bool
  position : Nat
  total : Nat
deriving DecidableEq

/-- `get_recipe_keyboard`. -/
def get_recipe_keyboard (recipe : Recipe) (user_id : Int)
    (current_index total_recipes : Nat) (db : List FavRow) : Keyboard :=
  { favLabelInFavorites := is_favorite recipe.id user_id db
    position := current_index + 1
    total := total_recipes }

/-- What the handler does to the chat after a search-mode action. -/
inductive SearchEffect where
  | rerender : SearchEffect
  | exhausted : SearchEffect
  | editMarkup (kb : Keyboard) : SearchEffect
  | finish : SearchEffect
  | nothing : SearchEffect
deriving DecidableEq

/-- `show_recipe`: with an empty list or an out-of-range index it reports
exhaustion and ends the conversation; otherwise it re-renders the current
item and the session continues unchanged. -/
def show_recipe (s : SearchSession) : Option SearchSession × SearchEffect :=
  if s.recipes.isEmpty ∨ s.recipes.length ≤ s.current_recipe_index then
    (none, SearchEffect.exhausted)
  else (some s, SearchEffect.rerender)

/-- `handle_recipe_navigation` on state `s` with the favorites table `db`:
returns the updated table, the surviving session (`none` = conversation
ended) and the chat effect.  `prev`/`next` move only inside the guard;
`fav_<id>` toggles the favorite and edits only the keyboard of the
current rendering; `done` ends; everything else falls through to
`show_recipe`. -/
def handle_recipe_navigation (user_id : Int) (db : List FavRow)
    (s : SearchSession) (a : SearchAction) :
    List FavRow × Option SearchSession × SearchEffect :=
  match a with
  | SearchAction.prev =>
    if 0 < s.current_recipe_index then
      (db, show_recipe { s with current_recipe_index := s.current_recipe_index - 1 })
    else (db, show_recipe s)
  | SearchAction.next =>
    if s.current_recipe_index < s.recipes.length - 1 then
      (db, show_recipe { s with current_recipe_index := s.current_recipe_index + 1 })
    else (db, show_recipe s)
  | SearchAction.fav recipe_id =>
    match s.recipes.find? (fun r => r.id == recipe_id) with
    | some recipe =>
      let db' :=
        if is_favorite recipe_id user_id db then
          remove_favorite recipe_id user_id db
        else add_favorite recipe user_id db
      (db', some s,
        SearchEffect.editMarkup
          (get_recipe_keyboard recipe user_id s.current_recipe_index
            s.recipes.length db'))
    | none => (db, some s, SearchEffect.nothing)
  | SearchAction.done => (db, none, SearchEffect.finish)
  | SearchAction.count => (db, show_recipe s)

/-- Favorites-mode browsing state: `favorites` (projected rows) and
`current_favorite_index`. -/
structure FavSession where
  favorites : List Recipe
  current_favorite_index : Nat
deriving DecidableEq

/-- The callback payloads of the favorites-mode keyboard; `fav_count` is
the fall-through position button. -/
inductive FavAction where
  | fav_prev : FavAction
  | fav_next : FavAction
  | remove (recipe_id : Int) : FavAction
  | fav_done : FavAction
  | fav_count : FavAction
deriving DecidableEq

/-- What the handler does to the chat after a favorites-mode action. -/
inductive FavEffect where
  | rerender : FavEffect
  | exhausted : FavEffect
  | noFavoritesLeft : FavEffect
  | finish : FavEffect
deriving DecidableEq

/-- `show_favorite_recipe`: same gate as `show_recipe`. -/
def show_favorite_recipe (s : FavSession) : Option FavSession × FavEffect :=
  if s.favorites.isEmpty ∨ s.favorites.length ≤ s.current_favorite_index then
    (none, FavEffect.exhausted)
  else (some s, FavEffect.rerender)

/-- `handle_favorites_navigation`: guarded `fav_prev`/`fav_next`;
`remove_<id>` deletes the rows from the store and the matching items from
the in-memory list, ends with a "no favorites left" report if the list
became empty and otherwise clamps the index to the last item; `fav_done`
ends; everything else falls through to `show_favorite_recipe`. -/
def handle_favorites_navigation (user_id : Int) (db : List FavRow)
    (s : FavSession) (a : FavAction) :
    List FavRow × Option FavSession × FavEffect :=
  match a with
  | FavAction.fav_prev =>
    if 0 < s.current_favorite_index then
      (db, show_favorite_recipe
        { s with current_favorite_index := s.current_favorite_index - 1 })
    else (db, show_favorite_recipe s)
  | FavAction.fav_next =>
    if s.current_favorite_index < s.favorites.length - 1 then
      (db, show_favorite_recipe
        { s with current_favorite_index := s.current_favorite_index + 1 })
    else (db, show_favorite_recipe s)
  | FavAction.remove recipe_id =>
    let db' := remove_favorite recipe_id user_id db
    let favorites' := s.favorites.filter (fun f => !(f.id == recipe_id))
    if favorites'.isEmpty then (db', none, FavEffect.noFavoritesLeft)
    else
      let index' :=
        if favorites'.length ≤ s.current_favorite_index then
          favorites'.length - 1
        else s.current_favorite_index
      (db', show_favorite_recipe
        { favorites := favorites', current_favorite_index := index' })
  | FavAction.fav_done => (db, none, FavEffect.finish)
  | FavAction.fav_count => (db, show_favorite_recipe s)

/-- Modelled from the spec's words for the refinement comparison of the
normalization: "normalized (trimmed, lower-cased, whitespace collapsed to
a join token)" — each maximal run of whitespace becomes a single join
token.  The flag records whether the previous character was whitespace. -/
def collapseRun : Bool → List Char → List Char
  | _, [] => []
  | prevWs, c :: cs =>
    if pyIsSpace c then
      if prevWs then collapseRun true cs else joinTok :: collapseRun true cs
    else c :: collapseRun false cs

/-- Modelled from the spec's words: trim, collapse whitespace runs to one
join token each, lower-case.  Lower-casing never creates, destroys or
moves whitespace or the join token, so performing it after the collapse
(rather than between trim and collapse) denotes the same function. -/
def normalizeSpec (s : List Char) : List Char :=
  pyLower (collapseRun false (pyStrip s))

/-- Every whitespace character of the string is a plain space and no two
whitespace characters are adjacent: on such strings replacing each space
by the join token coincides with collapsing whitespace runs. -/
def isolatedSpaces : List Char → Bool
  | [] => true
  | [c] => !pyIsSpace c || c.toNat == 32
  | c :: d :: rest =>
    ((!pyIsSpace c || c.toNat == 32) && !(pyIsSpace c && pyIsSpace d)) &&
    isolatedSpaces (d :: rest)

/-- Search-mode sessions reachable from a session start (`process_search`
stores a non-empty result list with index 0) through handled callbacks
that keep the conversation open, against arbitrary intervening favorites
tables. -/
inductive SearchReachable : SearchSession → Prop where
  | init (recipes : List Recipe) (h : recipes ≠ []) :
      SearchReachable { recipes := recipes, current_recipe_index := 0 }
  | step (user_id : Int) (db : List FavRow) (s s' : SearchSession)
      (a : SearchAction) (hs : SearchReachable s)
      (h : (handle_recipe_navigation user_id db s a).2.1 = some s') :
      SearchReachable s'

/-- Favorites-mode sessions reachable from a session start
(`show_favorites` stores a non-empty favorites list with index 0) through
handled callbacks that keep the conversation open. -/
inductive FavReachable : FavSession → Prop where
  | init (favorites : List Recipe) (h : favorites ≠ []) :
      FavReachable { favorites := favorites, current_favorite_index := 0 }
  | step (user_id : Int) (db : List FavRow) (s s' : FavSession)
      (a : FavAction) (hs : FavReachable s)
      (h : (handle_favorites_navigation user_id db s a).2.1 = some s') :
      FavReachable s'

/-- A sample recipe used to instantiate theorems at concrete inputs. -/
def sampleRecipe : Recipe :=
  { id := 7, title := "Sample", image := "img"
    usedIngredientCount := 1, missedIngredientCount := 0 }

/-- A second sample recipe with a different id. -/
def sampleRecipe2 : Recipe :=
  { id := 8, title := "Sample2", image := "img2"
    usedIngredientCount := 2, missedIngredientCount := 3 }

/-- A one-item search session over `sampleRecipe`. -/
def oneSearch : SearchSession :=
  { recipes := [sampleRecipe], current_recipe_index := 0 }

/-- A one-item favorites session over `sampleRecipe`. -/
def oneFav : FavSession :=
  { favorites := [sampleRecipe], current_favorite_index := 0 }

/-- The favorites row that saving `sampleRecipe` for user 7 produces. -/
def sampleRow : FavRow :=
  { recipe_id := 7, title := "Sample", image := "img"
    used_ingredients := 1, missed_ingredients := 0, user_id := 7 }

/-- The local table as a plain conditional: the guard of the filter does
not mention the recipe, so the result is all of `basic_recipes` or none
of it. -/
theorem get_local_recipes_eq (ingredients : List Char) :
    get_local_recipes ingredients =
      if containsSub "яйца".data (pyLower ingredients) &&
         containsSub "молоко".data (pyLower ingredients)
      then basic_recipes else [] := by
  simp only [get_local_recipes]
  cases h : containsSub "яйца".data (pyLower ingredients) &&
      containsSub "молоко".data (pyLower ingredients) <;>
    simp [h]

/-- Claim C1 (amended): with no remote credential configured,
`search_recipes` returns exactly the local-fallback filtered set whatever
the remote would have done: empty unless the lower-cased input contains
both the Russian tokens "яйца" ("eggs") and "молоко" ("milk"), in which
case it is the 2-entry local table; in particular the input
"яйца, молоко" yields the 2-entry table. -/
theorem C1_local_fallback_no_key (ingredients : List Char)
    (remote : RemoteResult) :
    search_recipes none ingredients remote =
      (if containsSub "яйца".data (pyLower ingredients) &&
          containsSub "молоко".data (pyLower ingredients)
       then basic_recipes else []) ∧
    basic_recipes.length = 2 ∧
    search_recipes none "яйца, молоко".data RemoteResult.transportError =
      basic_recipes := by
  refine ⟨?_, rfl, by decide⟩
  have hcall : call_spoonacular_api none ingredients remote = [] := rfl
  simp [search_recipes, hcall, get_local_recipes_eq]

/-- Claim C1, counterexample to the claim as stated: the English input
"eggs, milk" with no credential yields the empty list, not the 2-entry
local table (the code matches the Russian tokens). -/
theorem C1_counterexample :
    search_recipes none "eggs, milk".data RemoteResult.transportError = [] ∧
    basic_recipes ≠ [] := by decide

/-- Claim C10: the local fallback lookup is all-or-nothing — it returns
either both demo recipes or the empty list, never exactly one entry. -/
theorem C10_local_all_or_nothing (ingredients : List Char) :
    (get_local_recipes ingredients = basic_recipes ∨
     get_local_recipes ingredients = []) ∧
    (get_local_recipes ingredients).length ≠ 1 := by
  rw [get_local_recipes_eq]
  cases h : containsSub "яйца".data (pyLower ingredients) &&
      containsSub "молоко".data (pyLower ingredients)
  · exact ⟨Or.inr (if_neg (by simp [h])), by simp [h]⟩
  · exact ⟨Or.inl (if_pos (by simp [h])), by simp [h, basic_recipes]⟩

/-- Claim C2 (amended): with a credential configured, a transport error,
a 4xx/5xx status (including the quota status 402), or a malformed body
makes the API call return the empty list, and `search_recipes` then
returns the local fallback instead of raising. -/
theorem C2_error_fallback (key : String) (ingredients : List Char)
    (remote : RemoteResult)
    (h : remote = RemoteResult.transportError ∨
         (∃ status body, remote = RemoteResult.response status body ∧
            400 ≤ status ∧ status < 600) ∨
         ∃ status, remote = RemoteResult.response status none) :
    call_spoonacular_api (some key) ingredients remote = [] ∧
    search_recipes (some key) ingredients remote =
      get_local_recipes ingredients := by
  have hempty : call_spoonacular_api (some key) ingredients remote = [] := by
    rcases h with rfl | ⟨status, body, rfl, h1, h2⟩ | ⟨status, rfl⟩
    · rfl
    · by_cases h402 : status = 402 <;>
        simp [call_spoonacular_api, raise_for_status_raises, h402, h1, h2]
    · by_cases h402 : status = 402 <;>
        by_cases hr : raise_for_status_raises status = true <;>
        simp [call_spoonacular_api, h402, hr]
  exact ⟨hempty, by simp [search_recipes, hempty]⟩

/-- Claim C2, witness at the quota status 402. -/
theorem C2_error_fallback_witness :
    call_spoonacular_api (some "key") "eggs".data
        (RemoteResult.response 402 (some [sampleRecipe])) = [] ∧
    search_recipes (some "key") "eggs".data
        (RemoteResult.response 402 (some [sampleRecipe])) =
      get_local_recipes "eggs".data :=
  C2_error_fallback "key" "eggs".data _
    (Or.inr (Or.inl ⟨402, some [sampleRecipe], rfl, by decide, by decide⟩))

/-- Claim C2, counterexample to the claim as stated: a non-2xx status
outside the 4xx/5xx range (here 301) with a well-formed body is returned
as-is, not as the empty list — `raise_for_status` only rejects
4xx/5xx. -/
theorem C2_counterexample :
    call_spoonacular_api (some "key") "eggs".data
        (RemoteResult.response 301 (some [sampleRecipe])) = [sampleRecipe] ∧
    ¬(200 ≤ 301 ∧ 301 < 300) := by decide

/-- Claim C3: from any store state, adding a favorite makes
`is_favorite` true; removing makes it false; the removal deletes every
row matching the `(user_id, recipe_id)` pair and is a no-op when none
match. -/
theorem C3_favorites_roundtrip (r : Recipe) (u : Int) (db : List FavRow) :
    is_favorite r.id u (add_favorite r u db) = true ∧
    is_favorite r.id u (remove_favorite r.id u db) = false ∧
    (∀ row ∈ remove_favorite r.id u db,
        ¬(row.recipe_id = r.id ∧ row.user_id = u)) ∧
    ((∀ row ∈ db, ¬(row.recipe_id = r.id ∧ row.user_id = u)) →
        remove_favorite r.id u db = db) := by
  refine ⟨?_, ?_, ?_, ?_⟩
  · simp [is_favorite, add_favorite]
  · simp only [is_favorite, remove_favorite]
    rw [List.any_eq_false]
    intro row hrow
    rw [List.mem_filter] at hrow
    have h2 := hrow.2
    simp at h2 ⊢
    tauto
  · intro row hrow
    rw [remove_favorite, List.mem_filter] at hrow
    have h2 := hrow.2
    simp at h2
    tauto
  · intro hnone
    rw [remove_favorite, List.filter_eq_self]
    intro row hrow
    have h2 := hnone row hrow
    simp
    tauto

/-- Claim C3, witness at a concrete recipe, user and empty store. -/
theorem C3_favorites_roundtrip_witness :
    is_favorite sampleRecipe.id 7 (add_favorite sampleRecipe 7 []) = true ∧
    is_favorite sampleRecipe.id 7
        (remove_favorite sampleRecipe.id 7 []) = false ∧
    (∀ row ∈ remove_favorite sampleRecipe.id 7 [],
        ¬(row.recipe_id = sampleRecipe.id ∧ row.user_id = 7)) ∧
    ((∀ row ∈ ([] : List FavRow),
        ¬(row.recipe_id = sampleRecipe.id ∧ row.user_id = 7)) →
        remove_favorite sampleRecipe.id 7 [] = []) :=
  C3_favorites_roundtrip sampleRecipe 7 []

/-- Claim C4: in both modes, with non-empty items and an in-range cursor,
`previous` at cursor 0 and `next` at the last item leave the whole
session (cursor included) unchanged, keep the store unchanged and simply
re-render — the boundary is clamped, not wrapped, and neither case is an
error. -/
theorem C4_boundary_clamp (u : Int) (db : List FavRow)
    (s : SearchSession) (t : FavSession)
    (hs : s.recipes ≠ []) (hsi : s.current_recipe_index < s.recipes.length)
    (ht : t.favorites ≠ [])
    (hti : t.current_favorite_index < t.favorites.length) :
    (s.current_recipe_index = 0 →
      handle_recipe_navigation u db s SearchAction.prev =
        (db, some s, SearchEffect.rerender)) ∧
    (s.current_recipe_index = s.recipes.length - 1 →
      handle_recipe_navigation u db s SearchAction.next =
        (db, some s, SearchEffect.rerender)) ∧
    (t.current_favorite_index = 0 →
      handle_favorites_navigation u db t FavAction.fav_prev =
        (db, some t, FavEffect.rerender)) ∧
    (t.current_favorite_index = t.favorites.length - 1 →
      handle_favorites_navigation u db t FavAction.fav_next =
        (db, some t, FavEffect.rerender)) := by
  have hsne : s.recipes.isEmpty = false := by
    simpa [List.isEmpty_iff] using hs
  have htne : t.favorites.isEmpty = false := by
    simpa [List.isEmpty_iff] using ht
  refine ⟨fun h0 => ?_, fun hlast => ?_, fun h0 => ?_, fun hlast => ?_⟩
  · simp [handle_recipe_navigation, show_recipe, h0, hsne, hs,
      Nat.not_le.mpr hsi]
  · have hguard : ¬ s.current_recipe_index < s.recipes.length - 1 := by omega
    simp [handle_recipe_navigation, show_recipe, hguard, hsne, hs,
      Nat.not_le.mpr hsi]
  · simp [handle_favorites_navigation, show_favorite_recipe, h0, htne, ht,
      Nat.not_le.mpr hti]
  · have hguard : ¬ t.current_favorite_index < t.favorites.length - 1 := by
      omega
    simp [handle_favorites_navigation, show_favorite_recipe, hguard, htne, ht,
      Nat.not_le.mpr hti]

/-- Claim C4, witness on one-item sessions, where cursor 0 is both the
first and the last position. -/
theorem C4_boundary_clamp_witness :
    (oneSearch.current_recipe_index = 0 →
      handle_recipe_navigation 7 [] oneSearch SearchAction.prev =
        ([], some oneSearch, SearchEffect.rerender)) ∧
    (oneSearch.current_recipe_index = oneSearch.recipes.length - 1 →
      handle_recipe_navigation 7 [] oneSearch SearchAction.next =
        ([], some oneSearch, SearchEffect.rerender)) ∧
    (oneFav.current_favorite_index = 0 →
      handle_favorites_navigation 7 [] oneFav FavAction.fav_prev =
        ([], some oneFav, FavEffect.rerender)) ∧
    (oneFav.current_favorite_index = oneFav.favorites.length - 1 →
      handle_favorites_navigation 7 [] oneFav FavAction.fav_next =
        ([], some oneFav, FavEffect.rerender)) :=
  C4_boundary_clamp 7 [] oneSearch oneFav (by decide) (by decide)
    (by decide) (by decide)

/-- If `show_recipe` keeps the conversation open it returns the session
unchanged, and that session has non-empty items and an in-range cursor. -/
theorem show_recipe_inv (s s' : SearchSession)
    (h : (show_recipe s).1 = some s') :
    s' = s ∧ s.recipes ≠ [] ∧ s.current_recipe_index < s.recipes.length := by
  rw [show_recipe] at h
  split at h
  · simp at h
  · next hcond =>
    simp only [Option.some.injEq] at h
    push_neg at hcond
    refine ⟨h.symm, ?_, hcond.2⟩
    simpa [List.isEmpty_iff] using hcond.1

/-- Same statement for the favorites-mode gate. -/
theorem show_favorite_recipe_inv (s s' : FavSession)
    (h : (show_favorite_recipe s).1 = some s') :
    s' = s ∧ s.favorites ≠ [] ∧
      s.current_favorite_index < s.favorites.length := by
  rw [show_favorite_recipe] at h
  split at h
  · simp at h
  · next hcond =>
    simp only [Option.some.injEq] at h
    push_neg at hcond
    refine ⟨h.symm, ?_, hcond.2⟩
    simpa [List.isEmpty_iff] using hcond.1

/-- Every search-mode transition that keeps the session alive preserves
the cursor invariant. -/
theorem handle_recipe_navigation_inv (u : Int) (db : List FavRow)
    (s s' : SearchSession) (a : SearchAction)
    (hinv : s.recipes ≠ [] ∧ s.current_recipe_index < s.recipes.length)
    (h : (handle_recipe_navigation u db s a).2.1 = some s') :
    s'.recipes ≠ [] ∧ s'.current_recipe_index < s'.recipes.length := by
  cases a with
  | prev =>
    rw [handle_recipe_navigation] at h
    split at h <;>
      · obtain ⟨rfl, h1, h2⟩ := show_recipe_inv _ _ h
        exact ⟨h1, h2⟩
  | next =>
    rw [handle_recipe_navigation] at h
    split at h <;>
      · obtain ⟨rfl, h1, h2⟩ := show_recipe_inv _ _ h
        exact ⟨h1, h2⟩
  | fav rid =>
    rw [handle_recipe_navigation] at h
    split at h <;> simp at h <;> exact h ▸ hinv
  | done =>
    rw [handle_recipe_navigation] at h
    simp at h
  | count =>
    rw [handle_recipe_navigation] at h
    obtain ⟨rfl, h1, h2⟩ := show_recipe_inv _ _ h
    exact ⟨h1, h2⟩

/-- Every favorites-mode transition that keeps the session alive leaves a
session with non-empty items and an in-range cursor. -/
theorem handle_favorites_navigation_inv (u : Int) (db : List FavRow)
    (s s' : FavSession) (a : FavAction)
    (h : (handle_favorites_navigation u db s a).2.1 = some s') :
    s'.favorites ≠ [] ∧ s'.current_favorite_index < s'.favorites.length := by
  cases a with
  | fav_prev =>
    rw [handle_favorites_navigation] at h
    split at h <;>
      · obtain ⟨rfl, h1, h2⟩ := show_favorite_recipe_inv _ _ h
        exact ⟨h1, h2⟩
  | fav_next =>
    rw [handle_favorites_navigation] at h
    split at h <;>
      · obtain ⟨rfl, h1, h2⟩ := show_favorite_recipe_inv _ _ h
        exact ⟨h1, h2⟩
  | remove rid =>
    rw [handle_favorites_navigation] at h
    split at h
    · simp at h
    · obtain ⟨rfl, h1, h2⟩ := show_favorite_recipe_inv _ _ h
      exact ⟨h1, h2⟩
  | fav_done =>
    rw [handle_favorites_navigation] at h
    simp at h
  | fav_count =>
    rw [handle_favorites_navigation] at h
    obtain ⟨rfl, h1, h2⟩ := show_favorite_recipe_inv _ _ h
    exact ⟨h1, h2⟩

/-- The cursor invariant holds in every reachable search-mode session. -/
theorem searchReachable_inv (s : SearchSession) (h : SearchReachable s) :
    s.recipes ≠ [] ∧ s.current_recipe_index < s.recipes.length := by
  induction h with
  | init recipes hne => exact ⟨hne, List.length_pos.mpr hne⟩
  | step u db s s' a hs hstep ih =>
    exact handle_recipe_navigation_inv u db s s' a ih hstep

/-- The cursor invariant holds in every reachable favorites-mode
session. -/
theorem favReachable_inv (t : FavSession) (h : FavReachable t) :
    t.favorites ≠ [] ∧ t.current_favorite_index < t.favorites.length := by
  induction h with
  | init favorites hne => exact ⟨hne, List.length_pos.mpr hne⟩
  | step u db s s' a hs hstep ih =>
    exact handle_favorites_navigation_inv u db s s' a hstep

/-- Claim C5: in both modes, every session state reachable from a session
start through transitions that keep the session alive has non-empty
items and `0 <= cursor < len(items)` (the cursor is a `Nat`, so the
lower bound is intrinsic); a session whose items would be exhausted or
emptied is ended, never retained out of bounds. -/
theorem C5_cursor_invariant (s : SearchSession) (t : FavSession)
    (hs : SearchReachable s) (ht : FavReachable t) :
    (s.recipes ≠ [] ∧ s.current_recipe_index < s.recipes.length) ∧
    (t.favorites ≠ [] ∧ t.current_favorite_index < t.favorites.length) :=
  ⟨searchReachable_inv s hs, favReachable_inv t ht⟩

/-- Claim C5, witness at freshly started one-item sessions. -/
theorem C5_cursor_invariant_witness :
    (oneSearch.recipes ≠ [] ∧
      oneSearch.current_recipe_index < oneSearch.recipes.length) ∧
    (oneFav.favorites ≠ [] ∧
      oneFav.current_favorite_index < oneFav.favorites.length) :=
  C5_cursor_invariant oneSearch oneFav
    (SearchReachable.init [sampleRecipe] (by decide))
    (FavReachable.init [sampleRecipe] (by decide))

/-- Claim C6: the favorites-mode `remove` action deletes the matching
rows from the store and the matching items from the in-memory list; when
the list becomes empty the session ends with the "no favorites left"
report and — provided every stored row of the user was represented in
the session's items, as `show_favorites` guarantees at session start —
the store holds zero rows for that user; otherwise the session stays
alive on the filtered list with the cursor clamped to
`min(cursor, len(items)-1)`. -/
theorem C6_remove_both_stores (u : Int) (db : List FavRow) (t : FavSession)
    (rid : Int)
    (hsync : ∀ row ∈ db, row.user_id = u →
        ∃ it ∈ t.favorites, it.id = row.recipe_id) :
    (handle_favorites_navigation u db t (FavAction.remove rid)).1 =
      remove_favorite rid u db ∧
    (t.favorites.filter (fun f => !(f.id == rid)) = [] →
      handle_favorites_navigation u db t (FavAction.remove rid) =
        (remove_favorite rid u db, none, FavEffect.noFavoritesLeft) ∧
      (remove_favorite rid u db).filter (fun row => row.user_id == u) = []) ∧
    (t.favorites.filter (fun f => !(f.id == rid)) ≠ [] →
      handle_favorites_navigation u db t (FavAction.remove rid) =
        (remove_favorite rid u db,
         some { favorites := t.favorites.filter (fun f => !(f.id == rid)),
                current_favorite_index :=
                  min t.current_favorite_index
                    ((t.favorites.filter (fun f => !(f.id == rid))).length
                      - 1) },
         FavEffect.rerender)) := by
  have hstore : t.favorites.filter (fun f => !(f.id == rid)) = [] →
      (remove_favorite rid u db).filter (fun row => row.user_id == u) = [] := by
    intro hfil
    rw [List.filter_eq_nil_iff]
    intro row hrow
    rw [remove_favorite, List.mem_filter] at hrow
    obtain ⟨hdb, hneq⟩ := hrow
    simp at hneq ⊢
    intro huser
    obtain ⟨it, hit, hid⟩ := hsync row hdb huser
    have hne : row.recipe_id ≠ rid := by tauto
    have hmem : it ∈ t.favorites.filter (fun f => !(f.id == rid)) := by
      rw [List.mem_filter]
      exact ⟨hit, by simp [hid, hne]⟩
    rw [hfil] at hmem
    simp at hmem
  refine ⟨?_, fun hfil => ⟨?_, hstore hfil⟩, fun hfil => ?_⟩
  · simp only [handle_favorites_navigation]
    split <;> rfl
  · simp [handle_favorites_navigation, hfil]
  · have hlen : 0 <
        (t.favorites.filter (fun f => !(f.id == rid))).length :=
      List.length_pos.mpr hfil
    have hne : (t.favorites.filter (fun f => !(f.id == rid))).isEmpty
        = false := by
      simpa [List.isEmpty_iff] using hfil
    have hidx : (if (t.favorites.filter
          (fun f => !(f.id == rid))).length ≤ t.current_favorite_index then
          (t.favorites.filter (fun f => !(f.id == rid))).length - 1
        else t.current_favorite_index) =
        min t.current_favorite_index
          ((t.favorites.filter (fun f => !(f.id == rid))).length - 1) := by
      split <;> omega
    have hbound : min t.current_favorite_index
        ((t.favorites.filter (fun f => !(f.id == rid))).length - 1) <
        (t.favorites.filter (fun f => !(f.id == rid))).length := by omega
    simp [handle_favorites_navigation, show_favorite_recipe, hne, hfil,
      hidx, Nat.not_le.mpr hbound]

/-- Claim C6, witness: removing the only favorite of user 7 empties both
the in-memory list and the user's rows in the store and ends the
session. -/
theorem C6_remove_both_stores_witness :
    (handle_favorites_navigation 7 [sampleRow] oneFav
        (FavAction.remove 7)).1 = remove_favorite 7 7 [sampleRow] ∧
    (oneFav.favorites.filter (fun f => !(f.id == (7 : Int))) = [] →
      handle_favorites_navigation 7 [sampleRow] oneFav (FavAction.remove 7) =
        (remove_favorite 7 7 [sampleRow], none, FavEffect.noFavoritesLeft) ∧
      (remove_favorite 7 7 [sampleRow]).filter
        (fun row => row.user_id == (7 : Int)) = []) ∧
    (oneFav.favorites.filter (fun f => !(f.id == (7 : Int))) ≠ [] →
      handle_favorites_navigation 7 [sampleRow] oneFav (FavAction.remove 7) =
        (remove_favorite 7 7 [sampleRow],
         some { favorites := oneFav.favorites.filter
                  (fun f => !(f.id == (7 : Int))),
                current_favorite_index :=
                  min oneFav.current_favorite_index
                    ((oneFav.favorites.filter
                      (fun f => !(f.id == (7 : Int)))).length - 1) },
         FavEffect.rerender)) :=
  C6_remove_both_stores 7 [sampleRow] oneFav 7 (by decide)

/-- On strings whose whitespace consists of isolated single spaces,
replacing each space by the join token coincides with collapsing each
whitespace run to one join token. -/
theorem map_repl_eq_collapseRun (t : List Char)
    (h : isolatedSpaces t = true) :
    t.map replSpacePlus = collapseRun false t := by
  induction t with
  | nil => rfl
  | cons c cs ih =>
    cases cs with
    | nil =>
      rw [isolatedSpaces] at h
      rw [List.map_cons, List.map_nil, collapseRun]
      by_cases hc : pyIsSpace c = true
      · have hc32 : (c.toNat == 32) = true := by
          rw [hc] at h; simpa using h
        rw [if_pos hc, if_neg (by simp), replSpacePlus, if_pos hc32]
        rfl
      · have hc32 : (c.toNat == 32) = false := by
          cases hcc : c.toNat == 32
          · rfl
          · exact absurd (by rw [pyIsSpace, hcc]; rfl) hc
        rw [if_neg hc, replSpacePlus, if_neg (by rw [hc32]; simp)]
        rfl
    | cons d rest =>
      rw [isolatedSpaces] at h
      simp only [Bool.and_eq_true] at h
      obtain ⟨⟨h1, h2⟩, h3⟩ := h
      rw [List.map_cons, collapseRun]
      by_cases hc : pyIsSpace c = true
      · have hc32 : (c.toNat == 32) = true := by
          rw [hc] at h1; simpa using h1
        have hd : pyIsSpace d = false := by
          cases hdd : pyIsSpace d
          · rfl
          · rw [hc, hdd] at h2; simp at h2
        rw [if_pos hc, if_neg (by simp), replSpacePlus, if_pos hc32]
        congr 1
        rw [ih h3, collapseRun, collapseRun, if_neg (by rw [hd]; simp),
          if_neg (by rw [hd]; simp)]
      · have hc32 : (c.toNat == 32) = false := by
          cases hcc : c.toNat == 32
          · rfl
          · exact absurd (by rw [pyIsSpace, hcc]; rfl) hc
        rw [if_neg hc, replSpacePlus, if_neg (by rw [hc32]; simp)]
        congr 1
        exact ih h3

/-- Claim C7 (amended): the outgoing ingredient text is the input
trimmed, each single space character replaced by the join token `+`, and
lower-cased; it equals the spec's trim/collapse/lower-case normalization
exactly when the whitespace inside the trimmed input consists of
isolated single spaces — a run of k spaces yields k join tokens, not
one. -/
theorem C7_normalization_single_spaced (s : List Char)
    (h : isolatedSpaces (pyStrip s) = true) :
    (spoonacularParams s).ingredients = normalizeSpec s := by
  show ingredients_cleaned s = normalizeSpec s
  rw [ingredients_cleaned, normalizeSpec, map_repl_eq_collapseRun _ h]

/-- Claim C7, witness at a single-spaced input. -/
theorem C7_normalization_single_spaced_witness :
    (spoonacularParams " Eggs and Milk ".data).ingredients =
      normalizeSpec " Eggs and Milk ".data :=
  C7_normalization_single_spaced " Eggs and Milk ".data (by decide)

/-- Claim C7, counterexample to the claim as stated: a run of two spaces
between two words becomes two join tokens in the outgoing request, not a
single one, because `replace(" ", "+")` substitutes each space
separately. -/
theorem C7_counterexample :
    ingredients_cleaned "eggs  milk".data ≠
      normalizeSpec "eggs  milk".data ∧
    ingredients_cleaned "eggs  milk".data =
      "eggs".data ++ [joinTok, joinTok] ++ "milk".data ∧
    normalizeSpec "eggs  milk".data =
      "eggs".data ++ [joinTok] ++ "milk".data := by decide

/-- Claim C8: in an alive search-mode session, a `fav_<id>` press on a
recipe present in the items toggles the store entry according to
`is_favorite` and only edits the keyboard of the current rendering; the
session — cursor and items — is returned unchanged. -/
theorem C8_toggle_frame (u : Int) (db : List FavRow) (s : SearchSession)
    (rid : Int) (recipe : Recipe)
    (hfind : s.recipes.find? (fun r => r.id == rid) = some recipe) :
    handle_recipe_navigation u db s (SearchAction.fav rid) =
      ((if is_favorite rid u db then remove_favorite rid u db
        else add_favorite recipe u db),
       some s,
       SearchEffect.editMarkup
         (get_recipe_keyboard recipe u s.current_recipe_index
           s.recipes.length
           (if is_favorite rid u db then remove_favorite rid u db
            else add_favorite recipe u db))) := by
  simp only [handle_recipe_navigation, hfind]

/-- Claim C8, witness: toggling the only recipe of a one-item session
against an empty store adds it and leaves the session untouched. -/
theorem C8_toggle_frame_witness :
    handle_recipe_navigation 7 [] oneSearch (SearchAction.fav 7) =
      ((if is_favorite 7 7 [] then remove_favorite 7 7 []
        else add_favorite sampleRecipe 7 []),
       some oneSearch,
       SearchEffect.editMarkup
         (get_recipe_keyboard sampleRecipe 7 oneSearch.current_recipe_index
           oneSearch.recipes.length
           (if is_favorite 7 7 [] then remove_favorite 7 7 []
            else add_favorite sampleRecipe 7 []))) :=
  C8_toggle_frame 7 [] oneSearch 7 sampleRecipe (by decide)

/-- The local fallback never exceeds two entries and its match counts
are non-negative. -/
theorem get_local_recipes_counts (ingredients : List Char) :
    (get_local_recipes ingredients).length ≤ 2 ∧
    ∀ r ∈ get_local_recipes ingredients,
      0 ≤ r.usedIngredientCount ∧ 0 ≤ r.missedIngredientCount := by
  rw [get_local_recipes_eq]
  split
  · exact ⟨by decide, by decide⟩
  · exact ⟨by decide, by decide⟩

/-- Claim C9: the request asks the remote service for at most 10 items
(`number = 10`); for a non-empty input with a credential and a 2xx
response whose body honours the requested cap and the service's
non-negative count schema, `search_recipes` returns at most 10 items,
each with non-negative `usedIngredientCount` and
`missedIngredientCount` (the local fallback taken on an empty body also
satisfies both bounds). -/
theorem C9_remote_cap (key : String) (ingredients : List Char)
    (status : Nat) (body : List Recipe)
    (hne : ingredients ≠ [])
    (hok : 200 ≤ status ∧ status < 300)
    (hcap : body.length ≤ (spoonacularParams ingredients).number)
    (hcounts : ∀ r ∈ body,
        0 ≤ r.usedIngredientCount ∧ 0 ≤ r.missedIngredientCount) :
    (spoonacularParams ingredients).number = 10 ∧
    (search_recipes (some key) ingredients
        (RemoteResult.response status (some body))).length ≤ 10 ∧
    ∀ r ∈ search_recipes (some key) ingredients
        (RemoteResult.response status (some body)),
      0 ≤ r.usedIngredientCount ∧ 0 ≤ r.missedIngredientCount := by
  have h10 : (spoonacularParams ingredients).number = 10 := rfl
  rw [h10] at hcap
  have h402 : ¬ status = 402 := by omega
  have hr : raise_for_status_raises status = false := by
    rw [raise_for_status_raises]
    have : ¬ 400 ≤ status := by omega
    simp [this]
  have hcall : call_spoonacular_api (some key) ingredients
      (RemoteResult.response status (some body)) = body := by
    simp [call_spoonacular_api, h402, hr]
  by_cases hbody : body = []
  · subst hbody
    have hsearch : search_recipes (some key) ingredients
        (RemoteResult.response status (some [])) =
        get_local_recipes ingredients := by
      simp [search_recipes, hcall]
    rw [hsearch]
    refine ⟨h10, ?_, (get_local_recipes_counts ingredients).2⟩
    have := (get_local_recipes_counts ingredients).1
    omega
  · have hbe : body.isEmpty = false := by
      simpa [List.isEmpty_iff] using hbody
    have hsearch : search_recipes (some key) ingredients
        (RemoteResult.response status (some body)) = body := by
      simp [search_recipes, hcall, hbe]
    rw [hsearch]
    exact ⟨h10, hcap, hcounts⟩

/-- Claim C9, witness at a one-entry conforming remote response. -/
theorem C9_remote_cap_witness :
    (spoonacularParams "eggs".data).number = 10 ∧
    (search_recipes (some "key") "eggs".data
        (RemoteResult.response 200 (some [sampleRecipe]))).length ≤ 10 ∧
    ∀ r ∈ search_recipes (some "key") "eggs".data
        (RemoteResult.response 200 (some [sampleRecipe])),
      0 ≤ r.usedIngredientCount ∧ 0 ≤ r.missedIngredientCount :=
  C9_remote_cap "key" "eggs".data 200 [sampleRecipe] (by decide)
    (by decide) (by decide) (by decide)
